import Mathlib

/-!
Verification development for the DCB subscription renewal service.

The TypeScript source is embedded shallowly:
* machine time (JS `Date.getTime` / `Date.now`) is `Int` milliseconds since the epoch;
* each stateful collaborator (Redis list, Redis KV, BullMQ queue, RabbitMQ) is
  modelled by explicit values threaded through the functions, and the calls a
  method performs on them are recorded as explicit effect values in the order
  the source awaits them;
* clock reads, UUID minting and JSON parsing are oracle parameters, one value
  per read, so that every theorem quantifies over all possible behaviours of
  those sources.
-/

namespace RenewalSpec

/-- Milliseconds since the Unix epoch, as returned by JS `Date.getTime` / `Date.now`. -/
abbrev Millis := Int

/-- Error record carried by failed HTTP calls (`HttpCallError` in
`common/http-client/http-client.service.ts`). -/
structure HttpCallError where
  code : Option String
  message : Option String
deriving Repr, DecidableEq

/-- Joined `payment_channels` record of a subscription row. -/
structure PaymentChannel where
  id : Int
  code : String
deriving Repr, DecidableEq

/-- Joined `product_plans` record. -/
structure ProductPlan where
  id : Int
  billing_cycle_days : Nat
deriving Repr, DecidableEq

/-- Joined `plan_pricing` record. `base_amount` is a decimal in the source;
the claims only move it around, so an integer amount is used. -/
structure PlanPricing where
  base_amount : Int
  currency : String
deriving Repr, DecidableEq

/-- Joined `products` record. -/
structure ProductRecord where
  id : Int
  name : String
  description : Option String
  unsubscription_url : Option String
deriving Repr, DecidableEq

/-- Joined `merchants` record. -/
structure MerchantRecord where
  id : Int
deriving Repr, DecidableEq

/-- Operator-specific `charging_configurations.config` JSON. The GP worker
reads `keyword`; the ROBI worker reads the remaining fields. -/
structure ChargingConfig where
  keyword : Option String
  apiKey : String
  username : String
  onBehalfOf : String
  purchaseCategoryCode : String
  channel : String
  subscriptionID : String
  unSubURL : String
  contactInfo : String
deriving Repr, DecidableEq

/-- One row of `SubscriptionRepository.findRenewableSubscriptions`, with the
eagerly included joins (`RenewableSubscriptionPayload` in
`database/subscription.repository.ts`).  `charging_configurations` is the
composite `charging_configurations?.config` access: `none` when the relation
is absent. -/
structure RenewableSubscription where
  id : Int
  subscription_id : String
  msisdn : String
  status : String
  auto_renew : Bool
  next_billing_at : Option Millis
  merchant_transaction_id : String
  payment_channel_reference : Option String
  consent_id : Option String
  payment_channels : PaymentChannel
  charging_configurations : Option ChargingConfig
  product_plans : ProductPlan
  plan_pricing : Option PlanPricing
  products : ProductRecord
  merchants : MerchantRecord
deriving Repr, DecidableEq

/-- `ChargeResult` from `renewal/renewal.service.ts`: the serialized outcome a
worker pushes onto the Redis ledger.  Opaque JSON payloads are strings. -/
structure ChargeResult where
  subscriptionId : String
  data : RenewableSubscription
  timestamp : Millis
  success : Bool
  message : Option String
  paymentReferenceId : Option String
  error : Option HttpCallError
  httpStatus : Int
  requestPayload : String
  responsePayload : Option String
  responseDuration : Int
deriving Repr, DecidableEq

/-- `SubscriptionBulkUpdate` from `database/subscription.repository.ts`. -/
structure SubscriptionBulkUpdate where
  subscriptionId : String
  success : Bool
  nextBillingAt : Millis
deriving Repr, DecidableEq

/-- One row handed to `BillingEventRepository.createMany`
(`BillingEventsCreateManyInput`). -/
structure BillingEventRow where
  subscription_id : String
  merchant_id : Int
  product_id : Int
  plan_id : Int
  payment_channel_id : Int
  msisdn : String
  payment_reference_id : Option String
  event_type : String
  status : String
  amount : Int
  currency : String
  request_payload : String
  response_payload : Option String
  response_message : Option String
  duration : Int
  response_code : String
deriving Repr, DecidableEq

/-- `NotificationPayload` from `event-publisher/event-publisher.service.ts`
(the optional `metadata` record is never set by the consumer and is omitted). -/
structure NotificationPayload where
  id : String
  source : String
  subscriptionId : String
  merchantTransactionId : String
  keyword : String
  msisdn : String
  paymentProvider : String
  eventType : String
  amount : Int
  currency : String
  billingCycleDays : Nat
  timestamp : Millis
deriving Repr, DecidableEq

/-! ### ResultConsumerScheduler (renewal/result-consumer.scheduler.ts) -/

/-- Redis key of the result ledger list. -/
def RESULTS_REDIS_KEY : String := "renewal_status_report"

/-- Maximum number of ledger entries popped per consumer tick. -/
def MAX_BATCH_SIZE : Nat := 250

/-- Loop body of `processResultsBatch` building the `SubscriptionBulkUpdate`
entry: `nextBillingAt = now + billingCycleDays * 24 * 60 * 60 * 1000` where
`now` is the `new Date()` read of that iteration. -/
def mkSubscriptionUpdate (now : Millis) (result : ChargeResult) : SubscriptionBulkUpdate :=
  let billingCycleDays := result.data.product_plans.billing_cycle_days
  { subscriptionId := result.subscriptionId
    success := result.success
    nextBillingAt := now + (billingCycleDays : Int) * (24 * 60 * 60 * 1000) }

/-- Loop body of `processResultsBatch` building the billing-event row. -/
def mkBillingEvent (result : ChargeResult) : BillingEventRow :=
  { subscription_id := result.subscriptionId
    merchant_id := result.data.merchants.id
    product_id := result.data.products.id
    plan_id := result.data.product_plans.id
    payment_channel_id := result.data.payment_channels.id
    msisdn := result.data.msisdn
    payment_reference_id := result.paymentReferenceId
    event_type := "RENEWAL"
    status := if result.success then "SUCCESS" else "FAILED"
    amount := (result.data.plan_pricing.map PlanPricing.base_amount).getD 0
    currency := (result.data.plan_pricing.map PlanPricing.currency).getD "BDT"
    request_payload := result.requestPayload
    response_payload := result.responsePayload
    response_message := result.message
    duration := result.responseDuration
    response_code := toString result.httpStatus }

/-- Loop body of `processResultsBatch` building the notification message;
`id` comes from `crypto.randomUUID()` and `timestamp` from `Date.now()`,
both oracle inputs of the iteration. -/
def mkNotification (uuid : String) (nowTs : Millis) (result : ChargeResult) :
    NotificationPayload :=
  { id := uuid
    source := "dcb-renewal-service"
    subscriptionId := result.subscriptionId
    merchantTransactionId := result.data.merchant_transaction_id
    keyword := result.data.products.name
    msisdn := result.data.msisdn
    paymentProvider := result.data.payment_channels.code
    amount := (result.data.plan_pricing.map PlanPricing.base_amount).getD 0
    currency := (result.data.plan_pricing.map PlanPricing.currency).getD "BDT"
    billingCycleDays := result.data.product_plans.billing_cycle_days
    eventType := if result.success then "renew.success" else "renew.fail"
    timestamp := nowTs }

/-- Single pass of `processResultsBatch` over the parsed results, starting at
iteration index `i`.  `clock i` is the `new Date()` read of iteration `i`,
`tsClock i` the `Date.now()` read, `uuidGen i` the `crypto.randomUUID()`
value.  Returns the three accumulated input lists in source push order. -/
def processResultsBatchFrom (clock tsClock : Nat → Millis) (uuidGen : Nat → String) :
    Nat → List ChargeResult →
      List SubscriptionBulkUpdate × List BillingEventRow × List NotificationPayload
  | _, [] => ([], [], [])
  | i, result :: rest =>
    let tail := processResultsBatchFrom clock tsClock uuidGen (i + 1) rest
    ( mkSubscriptionUpdate (clock i) result :: tail.1
    , mkBillingEvent result :: tail.2.1
    , mkNotification (uuidGen i) (tsClock i) result :: tail.2.2 )

/-- `ResultConsumerScheduler.processResultsBatch`: the three lists built from
the batch in one pass. -/
def processResultsBatch (clock tsClock : Nat → Millis) (uuidGen : Nat → String)
    (results : List ChargeResult) :
    List SubscriptionBulkUpdate × List BillingEventRow × List NotificationPayload :=
  processResultsBatchFrom clock tsClock uuidGen 0 results

/-- Awaited downstream calls of one consumer tick, in source order. -/
inductive ConsumerEffect where
  | bulkUpdate (updates : List SubscriptionBulkUpdate)
  | createMany (events : List BillingEventRow)
  | sendNotificationsBatch (messages : List NotificationPayload)
deriving Repr, DecidableEq

/-- Effect trace of `processResultsBatch`: `bulkUpdateStatus`, then
`createMany`, then `sendNotificationsBatch`, each awaited in order. -/
def processResultsBatchEffects (clock tsClock : Nat → Millis) (uuidGen : Nat → String)
    (results : List ChargeResult) : List ConsumerEffect :=
  let built := processResultsBatch clock tsClock uuidGen results
  [ ConsumerEffect.bulkUpdate built.1
  , ConsumerEffect.createMany built.2.1
  , ConsumerEffect.sendNotificationsBatch built.2.2 ]

/-- Pop loop of `handleResultQueue`: up to `n` `lpop`s from the ledger list,
stopping at the first empty pop.  Returns the collected entries and the
remaining ledger. -/
def popBatch : Nat → List String → List String × List String
  | 0, ledger => ([], ledger)
  | _ + 1, [] => ([], [])
  | n + 1, value :: rest =>
    let tail := popBatch n rest
    (value :: tail.1, tail.2)

/-- `ResultConsumerScheduler.handleResultQueue` on a ledger state: pop up to
`MAX_BATCH_SIZE` entries, return early when none were collected, otherwise
parse each entry (`parse` is the `JSON.parse` oracle, `none` on malformed
input, which the source logs and skips) and process the batch.  Returns the
remaining ledger and the downstream effect trace. -/
def handleResultQueue (parse : String → Option ChargeResult)
    (clock tsClock : Nat → Millis) (uuidGen : Nat → String)
    (ledger : List String) : List String × List ConsumerEffect :=
  let popped := popBatch MAX_BATCH_SIZE ledger
  if popped.1.length = 0 then (popped.2, [])
  else
    let batch := popped.1.filterMap parse
    (popped.2, processResultsBatchEffects clock tsClock uuidGen batch)

theorem popBatch_eq (n : Nat) (ledger : List String) :
    popBatch n ledger = (ledger.take n, ledger.drop n) := by
  induction n generalizing ledger with
  | zero => simp [popBatch]
  | succ n ih =>
    cases ledger with
    | nil => simp [popBatch]
    | cons x rest => simp [popBatch, ih]

theorem processResultsBatchFrom_fst_get? (clock tsClock : Nat → Millis)
    (uuidGen : Nat → String) (j : Nat) (results : List ChargeResult) (i : Nat) :
    ((processResultsBatchFrom clock tsClock uuidGen j results).1[i]?).map
        SubscriptionBulkUpdate.nextBillingAt
      = (results[i]?).map (fun r =>
          clock (j + i) + (r.data.product_plans.billing_cycle_days : Int) *
            (24 * 60 * 60 * 1000)) := by
  induction results generalizing j i with
  | nil => simp [processResultsBatchFrom]
  | cons r rest ih =>
    cases i with
    | zero => simp [processResultsBatchFrom, mkSubscriptionUpdate]
    | succ i =>
      have h := ih (j + 1) i
      simpa [processResultsBatchFrom, Nat.add_assoc, Nat.add_comm 1 i] using h

theorem processResultsBatchFrom_lengths (clock tsClock : Nat → Millis)
    (uuidGen : Nat → String) (j : Nat) (results : List ChargeResult) :
    (processResultsBatchFrom clock tsClock uuidGen j results).1.length = results.length
    ∧ (processResultsBatchFrom clock tsClock uuidGen j results).2.1.length = results.length
    ∧ (processResultsBatchFrom clock tsClock uuidGen j results).2.2.length = results.length := by
  induction results generalizing j with
  | nil => simp [processResultsBatchFrom]
  | cons r rest ih =>
    have h := ih (j + 1)
    simp [processResultsBatchFrom, h.1, h.2.1, h.2.2]

/-- C3. One consumer tick pops `ledger.take 250` (at most `MAX_BATCH_SIZE`
entries, stopping at the first empty pop), does nothing further on an empty
ledger, and otherwise — with malformed entries dropped by the parse oracle —
issues exactly the trace `bulkUpdate`, `createMany`, `sendNotificationsBatch`
in that order, each carrying exactly `N` items where `N` is the number of
successfully parsed outcomes. -/
theorem handleResultQueue_batch_shape (parse : String → Option ChargeResult)
    (clock tsClock : Nat → Millis) (uuidGen : Nat → String) (ledger : List String) :
    (popBatch MAX_BATCH_SIZE ledger).1 = ledger.take MAX_BATCH_SIZE
    ∧ (popBatch MAX_BATCH_SIZE ledger).2 = ledger.drop MAX_BATCH_SIZE
    ∧ (popBatch MAX_BATCH_SIZE ledger).1.length = min MAX_BATCH_SIZE ledger.length
    ∧ handleResultQueue parse clock tsClock uuidGen [] = ([], [])
    ∧ (ledger ≠ [] →
        ∃ us es ns,
          (handleResultQueue parse clock tsClock uuidGen ledger).2 =
            [ ConsumerEffect.bulkUpdate us
            , ConsumerEffect.createMany es
            , ConsumerEffect.sendNotificationsBatch ns ]
          ∧ us.length = ((ledger.take MAX_BATCH_SIZE).filterMap parse).length
          ∧ es.length = ((ledger.take MAX_BATCH_SIZE).filterMap parse).length
          ∧ ns.length = ((ledger.take MAX_BATCH_SIZE).filterMap parse).length) := by
  refine ⟨by simp [popBatch_eq], by simp [popBatch_eq], ?_, ?_, ?_⟩
  · simp [popBatch_eq, List.length_take, Nat.min_comm]
  · simp [handleResultQueue, popBatch_eq]
  · intro hne
    have hlen : (ledger.take MAX_BATCH_SIZE).length ≠ 0 := by
      cases ledger with
      | nil => exact absurd rfl hne
      | cons x rest => simp [MAX_BATCH_SIZE]
    have hfrom := processResultsBatchFrom_lengths clock tsClock uuidGen 0
      ((ledger.take MAX_BATCH_SIZE).filterMap parse)
    refine ⟨_, _, _, ?_, hfrom.1, hfrom.2.1, hfrom.2.2⟩
    simp [handleResultQueue, popBatch_eq, hne, processResultsBatchEffects,
      processResultsBatch, MAX_BATCH_SIZE]

theorem handleResultQueue_batch_shape_witness :
    ∃ us es ns,
      (handleResultQueue (fun _ => (none : Option ChargeResult))
          (fun _ => (0 : Millis)) (fun _ => (0 : Millis)) (fun _ => "u") ["raw"]).2 =
        [ ConsumerEffect.bulkUpdate us
        , ConsumerEffect.createMany es
        , ConsumerEffect.sendNotificationsBatch ns ]
      ∧ us.length = ((["raw"].take MAX_BATCH_SIZE).filterMap
          (fun _ => (none : Option ChargeResult))).length
      ∧ es.length = ((["raw"].take MAX_BATCH_SIZE).filterMap
          (fun _ => (none : Option ChargeResult))).length
      ∧ ns.length = ((["raw"].take MAX_BATCH_SIZE).filterMap
          (fun _ => (none : Option ChargeResult))).length :=
  (handleResultQueue_batch_shape (fun _ => none) (fun _ => 0) (fun _ => 0)
    (fun _ => "u") ["raw"]).2.2.2.2 (by simp)

/-! ### RedisService list operations (common/redis/redis.module.ts) -/

/-- Result of an underlying ioredis call: `Except.error` models a thrown
store error. -/
abbrev StoreResult (A : Type) := Except String A

/-- `RedisService.rpush`: returns the new list length, or `null` when the
underlying store call threw — the error is caught, logged and swallowed. -/
def RedisService.rpush (backendResult : StoreResult Nat) : Option Nat :=
  match backendResult with
  | Except.ok n => some n
  | Except.error _ => none

/-- `RedisService.lpop`: returns the popped value, `null` on an empty list,
and also `null` when the underlying store call threw. -/
def RedisService.lpop (backendResult : StoreResult (Option String)) : Option String :=
  match backendResult with
  | Except.ok v => v
  | Except.error _ => none

/-- Log record emitted at the end of `RenewalService.publishChargeResult`. -/
structure PublishLog where
  subscriptionId : String
  success : Bool
  timestamp : Millis
deriving Repr, DecidableEq

/-- `RenewalService.publishChargeResult`: `rpush` the serialized result onto
the ledger, ignore the returned value, and log completion. -/
def RenewalService.publishChargeResult (backendResult : StoreResult Nat)
    (result : ChargeResult) : PublishLog :=
  let _ := RedisService.rpush backendResult
  { subscriptionId := result.subscriptionId
    success := result.success
    timestamp := result.timestamp }

/-- Pop loop of `handleResultQueue` seen through `RedisService.lpop` with an
arbitrary per-iteration store behaviour `lpopSeq` (iteration index `i`,
remaining fuel `n`): a `none` from `lpop` — empty list or swallowed store
error alike — ends the loop. -/
def collectViaLpop (lpopSeq : Nat → StoreResult (Option String)) :
    Nat → Nat → List String
  | _, 0 => []
  | i, n + 1 =>
    match RedisService.lpop (lpopSeq i) with
    | none => []
    | some v => v :: collectViaLpop lpopSeq (i + 1) n

/-- C10. The Redis adapter swallows store errors in its list operations:
`rpush` and `lpop` return `null` on a thrown store error instead of
propagating it, `publishChargeResult` completes identically whether the
append succeeded or failed (the outcome is silently dropped), and the
consumer's pop loop treats a store failure exactly like an empty ledger,
ending the drain at that iteration. -/
theorem redis_list_errors_swallowed :
    (∀ e, RedisService.rpush (Except.error e) = none)
    ∧ (∀ e, RedisService.lpop (Except.error e) = none)
    ∧ (∀ b₁ b₂ r, RenewalService.publishChargeResult b₁ r =
        RenewalService.publishChargeResult b₂ r)
    ∧ (∀ lpopSeq i n e, lpopSeq i = Except.error e →
        collectViaLpop lpopSeq i n = collectViaLpop (fun _ => Except.ok none) i n) := by
  refine ⟨fun e => rfl, fun e => rfl, fun b₁ b₂ r => rfl, ?_⟩
  intro lpopSeq i n e h
  cases n with
  | zero => rfl
  | succ n => simp [collectViaLpop, RedisService.lpop, h]

theorem redis_list_errors_swallowed_witness :
    RedisService.rpush (Except.error "boom") = none
    ∧ collectViaLpop (fun _ => Except.error "boom") 0 250 =
        collectViaLpop (fun _ => Except.ok none) 0 250 :=
  ⟨redis_list_errors_swallowed.1 "boom",
    redis_list_errors_swallowed.2.2.2 (fun _ => Except.error "boom") 0 250 "boom" rfl⟩

/-- C1. Every `SubscriptionBulkUpdate` entry written by the result consumer
for the i-th valid outcome of a batch, successful or failed, carries
`nextBillingAt = now + billing_cycle_days * 24 * 60 * 60 * 1000` where `now`
is the clock value read while consuming that outcome. -/
theorem nextBillingAt_advances_full_cycle (clock tsClock : Nat → Millis)
    (uuidGen : Nat → String) (results : List ChargeResult) (i : Nat) :
    (((processResultsBatch clock tsClock uuidGen results).1[i]?).map
        SubscriptionBulkUpdate.nextBillingAt)
      = (results[i]?).map (fun r =>
          clock i + (r.data.product_plans.billing_cycle_days : Int) *
            (24 * 60 * 60 * 1000)) := by
  simpa using processResultsBatchFrom_fst_get? clock tsClock uuidGen 0 results i

/-! ### Operator workers (renewal/renewal-gp.processor.ts, renewal-robi.processor.ts) -/

/-- Queue names from `RENEWAL_QUEUES` in renewal.module.ts. -/
def RENEWAL_QUEUES.GP : String := "renewal_gp"

def RENEWAL_QUEUES.ROBI : String := "renewal_robi"

def RENEWAL_QUEUES.ROBI_MIFE : String := "renewal_robi_mife"

/-- Options passed to BullMQ `Queue.add`; fields a given call does not set
are `none`/defaulted. -/
structure QueueAddOpts where
  delay : Millis
  attempts : Option Nat
  jobId : Option String
  removeOnComplete : Bool
  removeOnFail : Bool
deriving Repr, DecidableEq

/-- `RenewalJobData` from renewal/renewal.service.ts. -/
structure RenewalJobData where
  subscriptionId : String
  data : RenewableSubscription
deriving Repr, DecidableEq

/-- Observable calls a worker run performs, in source order. -/
inductive WorkerEffect where
  | enqueue (queue : String) (jobName : String) (payload : RenewalJobData)
      (opts : QueueAddOpts)
  | ledgerAppend (outcome : ChargeResult)
  | warnSkip (subscriptionId : String)
deriving Repr, DecidableEq

def WorkerEffect.isEnqueue : WorkerEffect → Bool
  | WorkerEffect.enqueue _ _ _ _ => true
  | _ => false

def WorkerEffect.isLedgerAppend : WorkerEffect → Bool
  | WorkerEffect.ledgerAppend _ => true
  | _ => false

/-- Return shape of the operator payment-service charge call as consumed by
the processors (`success`, `error`, payloads, duration, HTTP status). -/
structure OperatorChargeResult where
  success : Bool
  error : Option HttpCallError
  httpStatus : Int
  requestPayload : String
  responsePayload : Option String
  responseDuration : Int
deriving Repr, DecidableEq

/-- Charge payload the GP processor builds from the job snapshot. -/
structure GpChargePayload where
  amount : Int
  endUserId : Option String
  currency : Option String
  description : Option String
  consentId : Option String
  validityInDays : Nat
  referenceCode : String
  productId : String
deriving Repr, DecidableEq

/-- Payload construction in `RenewalGpProcessor.process`
(`config?.keyword ?? ''` and `plan_pricing?.base_amount?.toNumber() ?? 0`). -/
def gpChargePayloadOf (job : RenewalJobData) (paymentReferenceId : String) :
    GpChargePayload :=
  let data := job.data
  { amount := (data.plan_pricing.map PlanPricing.base_amount).getD 0
    endUserId := data.payment_channel_reference
    currency := data.plan_pricing.map PlanPricing.currency
    description := data.products.description
    consentId := data.consent_id
    validityInDays := data.product_plans.billing_cycle_days
    referenceCode := paymentReferenceId
    productId := ((data.charging_configurations.bind ChargingConfig.keyword).getD "") }

/-- `RenewalGpProcessor.process` on one delivered job.  Oracles: `charge` is
the awaited `GpPaymentService.charge` call; `paymentReferenceId` the minted
`uuidv4()`; `now` the `new Date()` read of the requeue block;
`nextLocalMidnight` the value the source computes as `midnight.setHours(0,0,0,0);
midnight.setDate(midnight.getDate()+1)` on `now` — the next local midnight
after `now`, passed in because timezone arithmetic is outside the model;
`pubTs` the `Date.now()` read at publish time. -/
def RenewalGpProcessor.process (charge : GpChargePayload → OperatorChargeResult)
    (job : RenewalJobData) (paymentReferenceId : String)
    (now nextLocalMidnight pubTs : Millis) : List WorkerEffect :=
  let chargePayload := gpChargePayloadOf job paymentReferenceId
  let chargeResult := charge chargePayload
  let isSuccess := chargeResult.success
  let message := if isSuccess then "GP: Successfully charged subscription."
    else "GP: Charging failed due to temporary gateway issue."
  let requeueEffects :=
    if isSuccess then []
    else
      let retryTime := now + 8 * 60 * 60 * 1000
      if retryTime < nextLocalMidnight then
        let delayMs := retryTime - now
        [ WorkerEffect.enqueue RENEWAL_QUEUES.GP RENEWAL_QUEUES.GP job
            { delay := delayMs, attempts := some 1, jobId := none
              removeOnComplete := true, removeOnFail := true } ]
      else []
  let outcome : ChargeResult :=
    { subscriptionId := job.subscriptionId
      paymentReferenceId := some paymentReferenceId
      data := job.data
      timestamp := pubTs
      success := isSuccess
      error := chargeResult.error
      requestPayload := chargeResult.requestPayload
      responsePayload := chargeResult.responsePayload
      responseDuration := chargeResult.responseDuration
      message := some message
      httpStatus := chargeResult.httpStatus }
  requeueEffects ++ [WorkerEffect.ledgerAppend outcome]

/-- Charge payload the ROBI processor builds from the job snapshot. -/
structure RobiChargePayload where
  amount : Int
  currency : String
  description : String
  referenceCode : String
  msisdn : String
  unSubURL : Option String
  config : ChargingConfig
deriving Repr, DecidableEq

/-- Payload construction in `RenewalRobiProcessor.process`. -/
def robiChargePayloadOf (config : ChargingConfig) (job : RenewalJobData)
    (paymentReferenceId : String) : RobiChargePayload :=
  let data := job.data
  { amount := (data.plan_pricing.map PlanPricing.base_amount).getD 0
    currency := (data.plan_pricing.map PlanPricing.currency).getD "BDT"
    description := data.products.description.getD ""
    referenceCode := paymentReferenceId
    msisdn := data.msisdn
    unSubURL := data.products.unsubscription_url
    config := config }

/-- `RenewalRobiProcessor.process` on one delivered job: a job without a
charging configuration is logged and returns without a ledger append;
otherwise exactly one outcome is appended.  The ROBI worker has no requeue
block. -/
def RenewalRobiProcessor.process
    (renewSubscription : RobiChargePayload → OperatorChargeResult)
    (job : RenewalJobData) (paymentReferenceId : String) (pubTs : Millis) :
    List WorkerEffect :=
  match job.data.charging_configurations with
  | none => [WorkerEffect.warnSkip job.subscriptionId]
  | some config =>
    let chargePayload := robiChargePayloadOf config job paymentReferenceId
    let chargeResult := renewSubscription chargePayload
    let isSuccess := chargeResult.success
    let message := if isSuccess then "ROBI: Successfully charged subscription."
      else "ROBI: Charging failed due to temporary gateway issue."
    let outcome : ChargeResult :=
      { subscriptionId := job.subscriptionId
        paymentReferenceId := some paymentReferenceId
        data := job.data
        timestamp := pubTs
        success := isSuccess
        error := chargeResult.error
        requestPayload := chargeResult.requestPayload
        responsePayload := chargeResult.responsePayload
        responseDuration := chargeResult.responseDuration
        message := some message
        httpStatus := chargeResult.httpStatus }
    [WorkerEffect.ledgerAppend outcome]

/-- C2. The GP worker re-enqueues the same payload onto the GP queue exactly
when the charge failed and `now + 8 h` is strictly before the next local
midnight; any such requeue carries an 8-hour delay, a single attempt,
`removeOnComplete = true`, `removeOnFail = true`; and the ROBI worker never
performs an in-day requeue. -/
theorem gp_requeue_policy (charge : GpChargePayload → OperatorChargeResult)
    (job : RenewalJobData) (paymentReferenceId : String)
    (now nextLocalMidnight pubTs : Millis) :
    (((RenewalGpProcessor.process charge job paymentReferenceId now
          nextLocalMidnight pubTs).any WorkerEffect.isEnqueue) = true
      ↔ ((charge (gpChargePayloadOf job paymentReferenceId)).success = false
          ∧ now + 8 * 60 * 60 * 1000 < nextLocalMidnight))
    ∧ (∀ q n p o, WorkerEffect.enqueue q n p o ∈
          RenewalGpProcessor.process charge job paymentReferenceId now
            nextLocalMidnight pubTs →
        q = RENEWAL_QUEUES.GP ∧ p = job ∧ o.delay = 8 * 60 * 60 * 1000
          ∧ o.attempts = some 1 ∧ o.removeOnComplete = true ∧ o.removeOnFail = true)
    ∧ (∀ renew job2 prid2 ts2,
        ((RenewalRobiProcessor.process renew job2 prid2 ts2).any
          WorkerEffect.isEnqueue) = false) := by
  refine ⟨?_, ?_, ?_⟩
  · by_cases hs : (charge (gpChargePayloadOf job paymentReferenceId)).success
    · simp [RenewalGpProcessor.process, hs, WorkerEffect.isEnqueue]
    · by_cases ht : now + 28800000 < nextLocalMidnight
      · simp [RenewalGpProcessor.process, hs, ht, WorkerEffect.isEnqueue]
      · simp [RenewalGpProcessor.process, hs, ht, WorkerEffect.isEnqueue]
  · intro q n p o hmem
    by_cases hs : (charge (gpChargePayloadOf job paymentReferenceId)).success
    · simp [RenewalGpProcessor.process, hs] at hmem
    · by_cases ht : now + 28800000 < nextLocalMidnight
      · simp [RenewalGpProcessor.process, hs, ht] at hmem
        obtain ⟨hq, hn, hp, ho⟩ := hmem
        subst hq hp ho
        refine ⟨rfl, rfl, by norm_num, rfl, rfl, rfl⟩
      · simp [RenewalGpProcessor.process, hs, ht] at hmem
  · intro renew job2 prid2 ts2
    cases hcfg : job2.data.charging_configurations with
    | none => simp [RenewalRobiProcessor.process, hcfg, WorkerEffect.isEnqueue]
    | some config => simp [RenewalRobiProcessor.process, hcfg, WorkerEffect.isEnqueue]

/-- C7. Every fault-free worker run appends exactly one charge outcome to
the ledger — for GP even when a same-day requeue was scheduled — except a
ROBI job with no charging configuration, which is logged and appends
nothing. -/
theorem worker_ledger_append_counts
    (charge : GpChargePayload → OperatorChargeResult) (job : RenewalJobData)
    (paymentReferenceId : String) (now nextLocalMidnight pubTs : Millis) :
    ((RenewalGpProcessor.process charge job paymentReferenceId now
        nextLocalMidnight pubTs).countP WorkerEffect.isLedgerAppend) = 1
    ∧ (∀ renew job2 prid2 ts2,
        ((RenewalRobiProcessor.process renew job2 prid2 ts2).countP
            WorkerEffect.isLedgerAppend)
          = if job2.data.charging_configurations.isNone then 0 else 1) := by
  constructor
  · by_cases hs : (charge (gpChargePayloadOf job paymentReferenceId)).success
    · simp [RenewalGpProcessor.process, hs, WorkerEffect.isLedgerAppend]
    · by_cases ht : now + 8 * 60 * 60 * 1000 < nextLocalMidnight
      · simp [RenewalGpProcessor.process, hs, ht, WorkerEffect.isLedgerAppend,
          WorkerEffect.isEnqueue, List.countP_cons]
      · simp [RenewalGpProcessor.process, hs, ht, WorkerEffect.isLedgerAppend]
  · intro renew job2 prid2 ts2
    cases hcfg : job2.data.charging_configurations with
    | none => simp [RenewalRobiProcessor.process, hcfg, WorkerEffect.isLedgerAppend]
    | some config =>
      simp [RenewalRobiProcessor.process, hcfg, WorkerEffect.isLedgerAppend]

/-! ### Concrete fixtures shared by the witness theorems -/

def samplePlan : ProductPlan := { id := 1, billing_cycle_days := 30 }

def samplePricing : PlanPricing := { base_amount := 50, currency := "BDT" }

def sampleProduct : ProductRecord :=
  { id := 2, name := "sports", description := some "desc"
    unsubscription_url := some "unsub" }

def sampleConfig : ChargingConfig :=
  { keyword := some "kw", apiKey := "k", username := "u", onBehalfOf := "o"
    purchaseCategoryCode := "c", channel := "WAP", subscriptionID := "s"
    unSubURL := "x", contactInfo := "i" }

def sampleSub : RenewableSubscription :=
  { id := 1, subscription_id := "S1", msisdn := "8801700000001"
    status := "ACTIVE", auto_renew := true, next_billing_at := some 10800000
    merchant_transaction_id := "MT1", payment_channel_reference := some "ref"
    consent_id := some "consent", payment_channels := { id := 3, code := "GP" }
    charging_configurations := some sampleConfig, product_plans := samplePlan
    plan_pricing := some samplePricing, products := sampleProduct
    merchants := { id := 4 } }

def sampleJob : RenewalJobData := { subscriptionId := "S1", data := sampleSub }

def failedCharge : OperatorChargeResult :=
  { success := false, error := some { code := some "E", message := some "fail" }
    httpStatus := 500, requestPayload := "req", responsePayload := some "resp"
    responseDuration := 12 }

def sampleRequeueOpts : QueueAddOpts :=
  { delay := 28800000, attempts := some 1, jobId := none
    removeOnComplete := true, removeOnFail := true }

theorem gp_requeue_policy_witness :
    RENEWAL_QUEUES.GP = RENEWAL_QUEUES.GP ∧ sampleJob = sampleJob
    ∧ sampleRequeueOpts.delay = 8 * 60 * 60 * 1000
    ∧ sampleRequeueOpts.attempts = some 1
    ∧ sampleRequeueOpts.removeOnComplete = true
    ∧ sampleRequeueOpts.removeOnFail = true :=
  (gp_requeue_policy (fun _ => failedCharge) sampleJob "PR1" 0 86400000 5).2.1
    RENEWAL_QUEUES.GP RENEWAL_QUEUES.GP sampleJob sampleRequeueOpts
    (by simp [RenewalGpProcessor.process, failedCharge, sampleRequeueOpts])

/-! ### SubscriptionRepository.bulkUpdateStatus (database/subscription.repository.ts) -/

/-- Columns of a `subscriptions` row touched by the bulk update. -/
structure SubscriptionRow where
  subscription_id : String
  status : String
  last_payment_succeed_at : Option Millis
  last_payment_failed_at : Option Millis
  next_billing_at : Option Millis
deriving Repr, DecidableEq

/-- SQL `CASE subscription_id WHEN ... THEN ... END` built by
`bulkUpdateStatus`: the first `WHEN` entry matching the row key applies. -/
def caseFor (updates : List SubscriptionBulkUpdate) (sid : String) :
    Option SubscriptionBulkUpdate :=
  updates.find? fun u => u.subscriptionId == sid

/-- `SubscriptionRepository.bulkUpdateStatus`: early return on an empty
update list, otherwise one raw UPDATE over the rows whose `subscription_id`
is in the key list — a single atomic statement, modelled as one total
function on the table state.  `now` is the single `new Date()` read. -/
def SubscriptionRepository.bulkUpdateStatus (now : Millis)
    (updates : List SubscriptionBulkUpdate) (db : List SubscriptionRow) :
    List SubscriptionRow :=
  if updates.isEmpty then db
  else
    db.map fun row =>
      match caseFor updates row.subscription_id with
      | none => row
      | some u =>
        { row with
          status := if u.success then "ACTIVE" else "SUSPENDED_PAYMENT_FAILED"
          last_payment_succeed_at := if u.success then some now else none
          last_payment_failed_at := if u.success then none else some now
          next_billing_at := some u.nextBillingAt }

/-- C4. For a non-empty update list the single-statement bulk update leaves
the table size unchanged and rewrites exactly the keyed rows: status becomes
`ACTIVE` on success and `SUSPENDED_PAYMENT_FAILED` on failure,
`last_payment_succeed_at` is `now` on success else `null`,
`last_payment_failed_at` is `now` on failure else `null`, `next_billing_at`
is the provided value; unkeyed rows are untouched and no other status value
is ever written. -/
theorem bulkUpdateStatus_spec (now : Millis) (updates : List SubscriptionBulkUpdate)
    (db : List SubscriptionRow) (hne : updates ≠ []) :
    (SubscriptionRepository.bulkUpdateStatus now updates db).length = db.length
    ∧ (∀ (i : Nat) (row : SubscriptionRow), db[i]? = some row →
        ∃ row2,
          (SubscriptionRepository.bulkUpdateStatus now updates db)[i]? = some row2
          ∧ (caseFor updates row.subscription_id = none → row2 = row)
          ∧ (∀ u, caseFor updates row.subscription_id = some u →
              row2.subscription_id = row.subscription_id
              ∧ row2.status = (if u.success then "ACTIVE" else "SUSPENDED_PAYMENT_FAILED")
              ∧ row2.last_payment_succeed_at = (if u.success then some now else none)
              ∧ row2.last_payment_failed_at = (if u.success then none else some now)
              ∧ row2.next_billing_at = some u.nextBillingAt))
    ∧ (∀ (i : Nat) (row row2 : SubscriptionRow), db[i]? = some row →
        (SubscriptionRepository.bulkUpdateStatus now updates db)[i]? = some row2 →
        row2.status ≠ row.status →
        (row2.status = "ACTIVE" ∨ row2.status = "SUSPENDED_PAYMENT_FAILED")) := by
  have hm : updates.isEmpty = false := by
    cases updates with
    | nil => exact absurd rfl hne
    | cons u rest => rfl
  refine ⟨?_, ?_, ?_⟩
  · simp [SubscriptionRepository.bulkUpdateStatus, hm]
  · intro i row hrow
    refine ⟨(match caseFor updates row.subscription_id with
      | none => row
      | some u =>
        { row with
          status := if u.success then "ACTIVE" else "SUSPENDED_PAYMENT_FAILED"
          last_payment_succeed_at := if u.success then some now else none
          last_payment_failed_at := if u.success then none else some now
          next_billing_at := some u.nextBillingAt }), ?_, ?_, ?_⟩
    · simp [SubscriptionRepository.bulkUpdateStatus, hm, List.getElem?_map, hrow]
    · intro hnone
      simp [hnone]
    · intro u hu
      simp [hu]
  · intro i row row2 hrow hrow2 hchanged
    have hrow2' : row2 =
        (match caseFor updates row.subscription_id with
          | none => row
          | some u =>
            { row with
              status := if u.success then "ACTIVE" else "SUSPENDED_PAYMENT_FAILED"
              last_payment_succeed_at := if u.success then some now else none
              last_payment_failed_at := if u.success then none else some now
              next_billing_at := some u.nextBillingAt }) := by
      have := hrow2
      simp [SubscriptionRepository.bulkUpdateStatus, hm, List.getElem?_map, hrow] at this
      exact this.symm
    cases hc : caseFor updates row.subscription_id with
    | none =>
      rw [hc] at hrow2'
      exact absurd (by rw [hrow2']) hchanged
    | some u =>
      rw [hc] at hrow2'
      by_cases hu : u.success
      · left
        rw [hrow2']
        simp [hu]
      · right
        rw [hrow2']
        simp [hu]

def sampleUpdate : SubscriptionBulkUpdate :=
  { subscriptionId := "S1", success := true, nextBillingAt := 2592010800000 }

def sampleRow : SubscriptionRow :=
  { subscription_id := "S1", status := "SUSPENDED_PAYMENT_FAILED"
    last_payment_succeed_at := none, last_payment_failed_at := some 1
    next_billing_at := some 10800000 }

theorem bulkUpdateStatus_spec_witness :
    (SubscriptionRepository.bulkUpdateStatus 42 [sampleUpdate] [sampleRow]).length
      = [sampleRow].length :=
  (bulkUpdateStatus_spec 42 [sampleUpdate] [sampleRow] (by simp)).1

/-! ### Dispatcher (renewal/renewal.schedular.ts and renewal/renewal.service.ts) -/

/-- One observable step of the daily dispatch. -/
inductive DispatchEffect where
  | warnOverdue (subscriptionId : String)
  | errorUnknownOperator (operator : String) (subscriptionId : String)
  | enqueue (queue : String) (jobName : String) (payload : RenewalJobData)
      (opts : QueueAddOpts)
deriving Repr, DecidableEq

/-- The `operatorQueues` record of `RenewalService`, mapping
`payment_channels.code` to the queue (identified by its name). -/
def operatorQueues : String → Option String
  | "GP" => some RENEWAL_QUEUES.GP
  | "ROBI" => some RENEWAL_QUEUES.ROBI
  | "ROBI_MIFE" => some RENEWAL_QUEUES.ROBI_MIFE
  | _ => none

/-- `RenewalService.dispatchRenewalJob`: an unknown operator is logged and
the row skipped; otherwise one job is added with `jobId = subscription_id`,
`removeOnComplete = true`, `removeOnFail = false`. -/
def RenewalService.dispatchRenewalJob (data : RenewalJobData) (delayMs : Millis) :
    List DispatchEffect :=
  let operator := data.data.payment_channels.code
  match operatorQueues operator with
  | none => [DispatchEffect.errorUnknownOperator operator data.subscriptionId]
  | some queue =>
    [ DispatchEffect.enqueue queue "renewal-attempt" data
        { delay := delayMs, attempts := none, jobId := some data.subscriptionId
          removeOnComplete := true, removeOnFail := false } ]

/-- Per-row body of `RenewalScheduler.dispatchJobs`: skip rows without
`next_billing_at`, clamp a negative delay to 0 with an overdue warning, then
dispatch. -/
def dispatchRowEffects (now : Millis) (sub : RenewableSubscription) :
    List DispatchEffect :=
  match sub.next_billing_at with
  | none => []
  | some t =>
    let rawDelay := t - now
    let warnings :=
      if rawDelay < 0 then [DispatchEffect.warnOverdue sub.subscription_id] else []
    let delayMs := if rawDelay < 0 then 0 else rawDelay
    warnings ++
      RenewalService.dispatchRenewalJob
        { subscriptionId := sub.subscription_id, data := sub } delayMs

/-- `RenewalScheduler.dispatchJobs` over one fetched page, with `now` the
single `Date.now()` read at the top of the loop. -/
def RenewalScheduler.dispatchJobs (now : Millis)
    (subscriptions : List RenewableSubscription) : List DispatchEffect :=
  subscriptions.flatMap (dispatchRowEffects now)

/-- C5. For every row the dispatcher processes: with a known operator it
enqueues exactly one job whose delay is `max(0, next_billing_at - now)`,
with `jobId = subscription_id`, `removeOnComplete = true`,
`removeOnFail = false`, preceded by an overdue warning exactly when the raw
difference was negative; with an unknown operator the row is logged and
skipped with no job enqueued. -/
theorem dispatch_row_spec (now : Millis) (sub : RenewableSubscription) (t : Millis)
    (hnba : sub.next_billing_at = some t) :
    (operatorQueues sub.payment_channels.code = none →
        dispatchRowEffects now sub =
          (if t - now < 0 then [DispatchEffect.warnOverdue sub.subscription_id] else [])
          ++ [DispatchEffect.errorUnknownOperator sub.payment_channels.code
                sub.subscription_id]
        ∧ ∀ q n p o, DispatchEffect.enqueue q n p o ∉ dispatchRowEffects now sub)
    ∧ (∀ q, operatorQueues sub.payment_channels.code = some q →
        dispatchRowEffects now sub =
          (if t - now < 0 then [DispatchEffect.warnOverdue sub.subscription_id] else [])
          ++ [ DispatchEffect.enqueue q "renewal-attempt"
                { subscriptionId := sub.subscription_id, data := sub }
                { delay := max 0 (t - now), attempts := none
                  jobId := some sub.subscription_id
                  removeOnComplete := true, removeOnFail := false } ]) := by
  constructor
  · intro hop
    constructor
    · simp [dispatchRowEffects, hnba, RenewalService.dispatchRenewalJob, hop]
    · intro q n p o
      by_cases h : t - now < 0 <;>
        simp [dispatchRowEffects, hnba, RenewalService.dispatchRenewalJob, hop, h]
  · intro q hop
    have hmax : max 0 (t - now) = if t - now < 0 then 0 else t - now := by
      rcases lt_or_ge (t - now) 0 with h | h
      · rw [if_pos h, max_eq_left h.le]
      · rw [if_neg (not_lt.mpr h), max_eq_right h]
    rw [hmax]
    simp [dispatchRowEffects, hnba, RenewalService.dispatchRenewalJob, hop]

theorem dispatch_row_spec_witness :
    dispatchRowEffects 0 sampleSub =
      (if (10800000 : Millis) - 0 < 0
        then [DispatchEffect.warnOverdue sampleSub.subscription_id] else [])
      ++ [ DispatchEffect.enqueue RENEWAL_QUEUES.GP "renewal-attempt"
            { subscriptionId := sampleSub.subscription_id, data := sampleSub }
            { delay := max 0 ((10800000 : Millis) - 0), attempts := none
              jobId := some sampleSub.subscription_id
              removeOnComplete := true, removeOnFail := false } ] :=
  (dispatch_row_spec 0 sampleSub 10800000 rfl).2 RENEWAL_QUEUES.GP rfl

/-! ### SubscriptionRepository.findRenewableSubscriptions -/

/-- Default of the `take` parameter. -/
def FIND_RENEWABLE_DEFAULT_TAKE : Nat := 10000

/-- JS `setUTCHours(0, 0, 0, 0)`: floor of the instant to its UTC day. -/
def startOfUtcDay (now : Millis) : Millis := 86400000 * Int.fdiv now 86400000

/-- JS truthiness of the optional bigint cursor: `undefined` and `0n` are
falsy, so the conditional spread in the where-clause adds the id filter only
for a present nonzero cursor. -/
def cursorTruthy : Option Int → Bool
  | none => false
  | some c => c != 0

/-- The Prisma where-clause of `findRenewableSubscriptions`. -/
def renewableWhere (todayStart todayEnd : Millis) (cursor : Option Int)
    (row : RenewableSubscription) : Bool :=
  row.auto_renew
  && (row.status == "ACTIVE" || row.status == "SUSPENDED_PAYMENT_FAILED")
  && (match row.next_billing_at with
      | some t => decide (todayStart ≤ t) && decide (t ≤ todayEnd)
      | none => false)
  && (if cursorTruthy cursor then decide (cursor.getD 0 < row.id) else true)

/-- `SubscriptionRepository.findRenewableSubscriptions` on a table state:
`findMany` with the where-clause, ordered by `id` ascending, first `take`
rows; rows carry their included joins.  Both window bounds come from the
tick's clock `now`. -/
def SubscriptionRepository.findRenewableSubscriptions (now : Millis)
    (db : List RenewableSubscription) (take : Nat) (cursor : Option Int) :
    List RenewableSubscription :=
  let todayStart := startOfUtcDay now
  let todayEnd := startOfUtcDay now + 86399999
  ((db.filter (renewableWhere todayStart todayEnd cursor)).mergeSort
      (fun a b => decide (a.id ≤ b.id))).take take

/-- Call with the defaulted `take = 10000` parameter. -/
def findRenewableSubscriptionsDefault (now : Millis)
    (db : List RenewableSubscription) (cursor : Option Int) :
    List RenewableSubscription :=
  SubscriptionRepository.findRenewableSubscriptions now db
    FIND_RENEWABLE_DEFAULT_TAKE cursor

/-- Renewability in the claim's words, with the cursor clause amended to a
present nonzero cursor (a zero cursor is falsy in JS and drops the filter). -/
def specRenewable (now : Millis) (cursor : Option Int)
    (row : RenewableSubscription) : Prop :=
  row.auto_renew = true
  ∧ (row.status = "ACTIVE" ∨ row.status = "SUSPENDED_PAYMENT_FAILED")
  ∧ (∃ t, row.next_billing_at = some t
      ∧ startOfUtcDay now ≤ t ∧ t ≤ startOfUtcDay now + 86399999)
  ∧ (∀ c, cursor = some c → c ≠ 0 → c < row.id)

theorem findRenewable_eq_mergeSort (now : Millis) (db : List RenewableSubscription)
    (takeN : Nat) (cursor : Option Int)
    (hfit : (db.filter (renewableWhere (startOfUtcDay now)
        (startOfUtcDay now + 86399999) cursor)).length ≤ takeN) :
    SubscriptionRepository.findRenewableSubscriptions now db takeN cursor
      = (db.filter (renewableWhere (startOfUtcDay now) (startOfUtcDay now + 86399999)
          cursor)).mergeSort (fun a b => decide (a.id ≤ b.id)) := by
  unfold SubscriptionRepository.findRenewableSubscriptions
  exact List.take_of_length_le
    (by rw [(List.mergeSort_perm _ _).length_eq]; exact hfit)

theorem renewableWhere_iff_specRenewable (now : Millis) (cursor : Option Int)
    (row : RenewableSubscription) :
    renewableWhere (startOfUtcDay now) (startOfUtcDay now + 86399999) cursor row = true
      ↔ specRenewable now cursor row := by
  cases cursor with
  | none =>
    cases hnba : row.next_billing_at with
    | none => simp [renewableWhere, specRenewable, cursorTruthy, hnba]
    | some t => simp [renewableWhere, specRenewable, cursorTruthy, hnba, and_assoc]
  | some c =>
    by_cases hc : c = 0
    · subst hc
      cases hnba : row.next_billing_at with
      | none => simp [renewableWhere, specRenewable, cursorTruthy, hnba]
      | some t => simp [renewableWhere, specRenewable, cursorTruthy, hnba, and_assoc]
    · cases hnba : row.next_billing_at with
      | none => simp [renewableWhere, specRenewable, cursorTruthy, hnba, hc]
      | some t =>
        simp [renewableWhere, specRenewable, cursorTruthy, hnba, hc, and_assoc]

/-- C6 (amended). Under unique row ids and a limit covering the filtered
set, `findRenewableSubscriptions` returns exactly the rows with
`auto_renew`, status `ACTIVE` or `SUSPENDED_PAYMENT_FAILED`,
`next_billing_at` inside the current UTC day, and — for a present nonzero
cursor — `id` strictly above the cursor; the result is strictly ascending
by `id`, rows carry their joins, and the `take` parameter defaults to
10000. -/
theorem findRenewable_spec (now : Millis) (db : List RenewableSubscription)
    (takeN : Nat) (cursor : Option Int)
    (hids : (db.map RenewableSubscription.id).Nodup)
    (hfit : (db.filter (renewableWhere (startOfUtcDay now)
        (startOfUtcDay now + 86399999) cursor)).length ≤ takeN) :
    (∀ row, row ∈ SubscriptionRepository.findRenewableSubscriptions now db takeN cursor
        ↔ (row ∈ db ∧ specRenewable now cursor row))
    ∧ (SubscriptionRepository.findRenewableSubscriptions now db takeN cursor).Pairwise
        (fun a b => a.id < b.id)
    ∧ findRenewableSubscriptionsDefault now db cursor
        = SubscriptionRepository.findRenewableSubscriptions now db 10000 cursor := by
  have hperm :
      ((db.filter (renewableWhere (startOfUtcDay now) (startOfUtcDay now + 86399999)
          cursor)).mergeSort (fun a b => decide (a.id ≤ b.id))).Perm
        (db.filter (renewableWhere (startOfUtcDay now) (startOfUtcDay now + 86399999)
          cursor)) :=
    List.mergeSort_perm _ _
  have hres : SubscriptionRepository.findRenewableSubscriptions now db takeN cursor
      = (db.filter (renewableWhere (startOfUtcDay now) (startOfUtcDay now + 86399999)
          cursor)).mergeSort (fun a b => decide (a.id ≤ b.id)) :=
    findRenewable_eq_mergeSort now db takeN cursor hfit
  refine ⟨?_, ?_, rfl⟩
  · intro row
    rw [hres, hperm.mem_iff, List.mem_filter, renewableWhere_iff_specRenewable]
  · have hsorted := @List.sorted_mergeSort RenewableSubscription
      (fun a b : RenewableSubscription => decide (a.id ≤ b.id))
      (fun a b c hab hbc => by
        simp only [decide_eq_true_eq] at *
        exact le_trans hab hbc)
      (fun a b => by
        simp only [Bool.or_eq_true, decide_eq_true_eq]
        exact le_total a.id b.id)
      (db.filter (renewableWhere (startOfUtcDay now) (startOfUtcDay now + 86399999)
        cursor))
    have hle : (SubscriptionRepository.findRenewableSubscriptions now db takeN
        cursor).Pairwise (fun a b => a.id ≤ b.id) := by
      rw [hres]
      exact hsorted.imp (by intro a b h; exact decide_eq_true_eq.mp h)
    have hnd : ((SubscriptionRepository.findRenewableSubscriptions now db takeN
        cursor).map RenewableSubscription.id).Nodup := by
      rw [hres]
      exact ((hperm.map RenewableSubscription.id).nodup_iff).mpr
        (List.Nodup.sublist (List.Sublist.map _ (List.filter_sublist db)) hids)
    have hmaple : ((SubscriptionRepository.findRenewableSubscriptions now db takeN
        cursor).map RenewableSubscription.id).Sorted (fun a b => a ≤ b) :=
      List.pairwise_map.mpr hle
    have hmaplt := hmaple.lt_of_le hnd
    exact List.pairwise_map.mp hmaplt

/-- Row used by the cursor-zero counterexample: a renewable row whose `id`
is `0`. -/
def cursorZeroRow : RenewableSubscription :=
  { sampleSub with id := 0 }

/-- C6 (counterexample). With a present cursor of `0` — falsy in JS, so the
id filter is dropped — the function returns a row whose `id` is not
strictly greater than the cursor, contradicting the claim as stated. -/
theorem findRenewable_cursor_zero_counterexample :
    cursorZeroRow ∈ SubscriptionRepository.findRenewableSubscriptions 0
        [cursorZeroRow] FIND_RENEWABLE_DEFAULT_TAKE (some 0)
    ∧ ¬ ((0 : Int) < cursorZeroRow.id) := by
  have hw : renewableWhere (startOfUtcDay 0) (startOfUtcDay 0 + 86399999) (some 0)
      cursorZeroRow = true := by decide
  have hfil : [cursorZeroRow].filter (renewableWhere (startOfUtcDay 0)
      (startOfUtcDay 0 + 86399999) (some 0)) = [cursorZeroRow] := by
    simp [hw]
  constructor
  · rw [findRenewable_eq_mergeSort 0 [cursorZeroRow] FIND_RENEWABLE_DEFAULT_TAKE
        (some 0) (by rw [hfil]; simp [FIND_RENEWABLE_DEFAULT_TAKE]),
      (List.mergeSort_perm _ _).mem_iff, hfil]
    simp
  · decide

theorem findRenewable_spec_witness :
    sampleSub ∈ SubscriptionRepository.findRenewableSubscriptions 0 [sampleSub]
        10000 none
      ↔ (sampleSub ∈ [sampleSub] ∧ specRenewable 0 none sampleSub) :=
  (findRenewable_spec 0 [sampleSub] 10000 none (by simp) (by decide)).1 sampleSub

/-! ### EventPublisherService fallback retrier (event-publisher/event-publisher.service.ts) -/

/-- Retry cap `maxFallbackRetries` of the retrier. -/
def maxFallbackRetries : Nat := 5

/-- `FallbackMessage`: a notification payload plus retry bookkeeping, stored
as JSON under `notification:fallback:<id>`. -/
structure FallbackMessage extends NotificationPayload where
  failedAt : Millis
  retryCount : Nat
deriving Repr, DecidableEq

/-- `EventPublisherService.storeFallback`: the stored message keeps the retry
count of an existing entry under the same key (JS
`existingMessage?.retryCount || 0`) and stamps the current failure time. -/
def EventPublisherService.storeFallback (nowMs : Millis)
    (existing : Option FallbackMessage) (notification : NotificationPayload) :
    FallbackMessage :=
  { toNotificationPayload := notification
    failedAt := nowMs
    retryCount := (existing.map FallbackMessage.retryCount).getD 0 }

/-- `EventPublisherService.processFallbackStorage`, one 5-minute tick over
the fallback entries in `getKeys` order.  `connected` is the
`rabbitmqService.isConnected()` reading, fixed for the tick, and
`publishOk key` tells whether `publishMessage` succeeds for that key's
message.  A disconnected broker breaks out of the loop leaving the rest of
the store untouched; a message at the retry cap is deleted as a permanent
failure; a successful publish deletes the key; a failed publish re-reads the
message, increments `retryCount` and writes it back.  Returns the fallback
store after the tick. -/
def EventPublisherService.processFallbackStorage (connected : Bool)
    (publishOk : String → Bool) :
    List (String × FallbackMessage) → List (String × FallbackMessage)
  | [] => []
  | (key, message) :: rest =>
    if connected = false then (key, message) :: rest
    else if maxFallbackRetries ≤ message.retryCount then
      EventPublisherService.processFallbackStorage connected publishOk rest
    else if publishOk key then
      EventPublisherService.processFallbackStorage connected publishOk rest
    else
      (key, { message with retryCount := message.retryCount + 1 })
        :: EventPublisherService.processFallbackStorage connected publishOk rest

/-- Presence of a key in a fallback store state. -/
def hasKey (store : List (String × FallbackMessage)) (key : String) : Prop :=
  ∃ m, (key, m) ∈ store

theorem fallback_keys_subset (connected : Bool) (publishOk : String → Bool)
    (store : List (String × FallbackMessage)) :
    ∀ key, hasKey (EventPublisherService.processFallbackStorage connected publishOk
        store) key → hasKey store key := by
  induction store with
  | nil =>
    rintro key ⟨x, hx⟩
    simp [EventPublisherService.processFallbackStorage] at hx
  | cons head rest ih =>
    obtain ⟨k, m⟩ := head
    intro key h
    cases connected with
    | false => exact h
    | true =>
      by_cases hcap : maxFallbackRetries ≤ m.retryCount
      · have hstep : EventPublisherService.processFallbackStorage true publishOk
            ((k, m) :: rest)
            = EventPublisherService.processFallbackStorage true publishOk rest := by
          simp [EventPublisherService.processFallbackStorage, hcap]
        rw [hstep] at h
        obtain ⟨x, hx⟩ := ih key h
        exact ⟨x, List.mem_cons_of_mem _ hx⟩
      · by_cases hpub : publishOk k
        · have hstep : EventPublisherService.processFallbackStorage true publishOk
              ((k, m) :: rest)
              = EventPublisherService.processFallbackStorage true publishOk rest := by
            simp [EventPublisherService.processFallbackStorage, hcap, hpub]
          rw [hstep] at h
          obtain ⟨x, hx⟩ := ih key h
          exact ⟨x, List.mem_cons_of_mem _ hx⟩
        · have hstep : EventPublisherService.processFallbackStorage true publishOk
              ((k, m) :: rest)
              = (k, { m with retryCount := m.retryCount + 1 })
                :: EventPublisherService.processFallbackStorage true publishOk rest := by
            simp [EventPublisherService.processFallbackStorage, hcap, hpub]
          rw [hstep] at h
          obtain ⟨x, hx⟩ := h
          rcases List.mem_cons.mp hx with h1 | h2
          · have hk : key = k := congrArg Prod.fst h1
            exact ⟨m, by simp [hk]⟩
          · obtain ⟨y, hy⟩ := ih key ⟨x, h2⟩
            exact ⟨y, List.mem_cons_of_mem _ hy⟩

/-- C8. A fallback entry is removed only by a successful publish or by its
retry count reaching the cap of 5, and conversely: on a tick with the broker
disconnected the store is untouched; with the broker connected, an entry at
the cap or publishing successfully is deleted, while a failed publish keeps
the key with its retry count incremented. -/
theorem fallback_retrier_spec (publishOk : String → Bool)
    (store : List (String × FallbackMessage)) :
    (EventPublisherService.processFallbackStorage false publishOk store = store)
    ∧ ((store.map Prod.fst).Nodup →
        ∀ (key : String) (message : FallbackMessage), (key, message) ∈ store →
          ((¬ hasKey (EventPublisherService.processFallbackStorage true publishOk
              store) key)
            ↔ (maxFallbackRetries ≤ message.retryCount ∨ publishOk key = true))
          ∧ (message.retryCount < maxFallbackRetries → publishOk key = false →
              (key, { message with retryCount := message.retryCount + 1 })
                ∈ EventPublisherService.processFallbackStorage true publishOk store)) := by
  constructor
  · cases store with
    | nil => rfl
    | cons head rest =>
      obtain ⟨k, m⟩ := head
      simp [EventPublisherService.processFallbackStorage]
  · induction store with
    | nil =>
      intro _ key message hmem
      simp at hmem
    | cons head rest ih =>
      obtain ⟨k, m⟩ := head
      intro hnodup key message hmem
      rw [List.map_cons, List.nodup_cons] at hnodup
      obtain ⟨hknotin, hrestnodup⟩ := hnodup
      have hnotkeyrest : ∀ x : FallbackMessage, (k, x) ∈ rest → False := by
        intro x hx
        have hmm : (k, x).1 ∈ rest.map Prod.fst := List.mem_map_of_mem Prod.fst hx
        exact hknotin hmm
      rcases List.mem_cons.mp hmem with hhead | htail
      · have hk : key = k := congrArg Prod.fst hhead
        have hm : message = m := congrArg Prod.snd hhead
        subst hk
        subst hm
        by_cases hcap : maxFallbackRetries ≤ message.retryCount
        · have hstep : EventPublisherService.processFallbackStorage true publishOk
              ((key, message) :: rest)
              = EventPublisherService.processFallbackStorage true publishOk rest := by
            simp [EventPublisherService.processFallbackStorage, hcap]
          refine ⟨?_, ?_⟩
          · rw [hstep]
            constructor
            · intro _
              exact Or.inl hcap
            · intro _ hin
              obtain ⟨x, hx⟩ := fallback_keys_subset true publishOk rest key hin
              exact hnotkeyrest x hx
          · intro hlt _
            omega
        · by_cases hpub : publishOk key
          · have hstep : EventPublisherService.processFallbackStorage true publishOk
                ((key, message) :: rest)
                = EventPublisherService.processFallbackStorage true publishOk rest := by
              simp [EventPublisherService.processFallbackStorage, hcap, hpub]
            refine ⟨?_, ?_⟩
            · rw [hstep]
              constructor
              · intro _
                exact Or.inr hpub
              · intro _ hin
                obtain ⟨x, hx⟩ := fallback_keys_subset true publishOk rest key hin
                exact hnotkeyrest x hx
            · intro _ hpub'
              rw [hpub'] at hpub
              cases hpub
          · have hstep : EventPublisherService.processFallbackStorage true publishOk
                ((key, message) :: rest)
                = (key, { message with retryCount := message.retryCount + 1 })
                  :: EventPublisherService.processFallbackStorage true publishOk rest := by
              simp [EventPublisherService.processFallbackStorage, hcap, hpub]
            refine ⟨?_, ?_⟩
            · rw [hstep]
              constructor
              · intro hnot
                exact absurd ⟨_, List.mem_cons_self _ _⟩ hnot
              · intro hdel
                rcases hdel with h | h
                · exact absurd h hcap
                · exact absurd h hpub
            · intro _ _
              rw [hstep]
              exact List.mem_cons_self _ _
      · have hkne : key ≠ k := by
          intro h
          subst h
          exact hnotkeyrest message htail
        have ihres := ih hrestnodup key message htail
        by_cases hcap : maxFallbackRetries ≤ m.retryCount
        · have hstep : EventPublisherService.processFallbackStorage true publishOk
              ((k, m) :: rest)
              = EventPublisherService.processFallbackStorage true publishOk rest := by
            simp [EventPublisherService.processFallbackStorage, hcap]
          refine ⟨by rw [hstep]; exact ihres.1, ?_⟩
          intro hlt hpub'
          rw [hstep]
          exact ihres.2 hlt hpub'
        · by_cases hpub : publishOk k
          · have hstep : EventPublisherService.processFallbackStorage true publishOk
                ((k, m) :: rest)
                = EventPublisherService.processFallbackStorage true publishOk rest := by
              simp [EventPublisherService.processFallbackStorage, hcap, hpub]
            refine ⟨by rw [hstep]; exact ihres.1, ?_⟩
            intro hlt hpub'
            rw [hstep]
            exact ihres.2 hlt hpub'
          · have hstep : EventPublisherService.processFallbackStorage true publishOk
                ((k, m) :: rest)
                = (k, { m with retryCount := m.retryCount + 1 })
                  :: EventPublisherService.processFallbackStorage true publishOk rest := by
              simp [EventPublisherService.processFallbackStorage, hcap, hpub]
            refine ⟨?_, ?_⟩
            · rw [hstep]
              constructor
              · intro hnot
                refine ihres.1.mp ?_
                intro hin
                obtain ⟨x, hx⟩ := hin
                exact hnot ⟨x, List.mem_cons_of_mem _ hx⟩
              · intro hdel hin
                obtain ⟨x, hx⟩ := hin
                rcases List.mem_cons.mp hx with h1 | h2
                · exact hkne (congrArg Prod.fst h1)
                · exact (ihres.1.mpr hdel) ⟨x, h2⟩
            · intro hlt hpub'
              rw [hstep]
              exact List.mem_cons_of_mem _ (ihres.2 hlt hpub')

def sampleNotification : NotificationPayload :=
  { id := "N1", source := "dcb-renewal-service", subscriptionId := "S1"
    merchantTransactionId := "MT1", keyword := "sports"
    msisdn := "8801700000001", paymentProvider := "GP"
    eventType := "renew.fail", amount := 50, currency := "BDT"
    billingCycleDays := 30, timestamp := 7 }

def cappedFallback : FallbackMessage :=
  { toNotificationPayload := sampleNotification, failedAt := 9, retryCount := 5 }

theorem fallback_retrier_spec_witness :
    ¬ hasKey (EventPublisherService.processFallbackStorage true (fun _ => false)
        [("notification:fallback:N1", cappedFallback)]) "notification:fallback:N1" :=
  (((fallback_retrier_spec (fun _ => false)
      [("notification:fallback:N1", cappedFallback)]).2 (by simp)
      "notification:fallback:N1" cappedFallback (by simp)).1).mpr
    (Or.inl (by decide))

/-! ### HttpClientService, HttpCallResult variant
(common/http-client/http-client.service.ts) and the gateway services
(payment/gp.payment.service.ts, payment/robi.payment.service.ts) -/

/-- Axios response object as the client reads it. -/
structure AxiosResponse (T : Type) where
  status : Int
  data : T
  headers : String
deriving Repr, DecidableEq

/-- AxiosError: `response` is present for a non-2xx HTTP reply and absent on
a transport-level failure (timeout, DNS error, connection refused). -/
structure AxiosError (T : Type) where
  response : Option (AxiosResponse T)
  code : Option String
  message : Option String
deriving Repr, DecidableEq

/-- Outcome of the underlying axios request after the retry operator: a 2xx
response into the `map` branch, or an error into the `catchError` branch. -/
inductive AxiosOutcome (T : Type) where
  | success (r : AxiosResponse T)
  | failure (e : AxiosError T)
deriving Repr, DecidableEq

/-- `HttpCallResult` returned by every wrapper method of the client. -/
structure HttpCallResult (T : Type) where
  status : Int
  data : Option T
  headers : String
  error : Option HttpCallError
  duration : Int
deriving Repr, DecidableEq

/-- Nest `HttpStatus.GATEWAY_TIMEOUT`. -/
def HTTP_STATUS_GATEWAY_TIMEOUT : Int := 504

/-- `HttpClientService.execute`: the `map` branch wraps a 2xx response; the
`catchError` branch returns (`of(...)`) a result value instead of rethrowing,
with `status = err.response?.status ?? GATEWAY_TIMEOUT`,
`data = err.response?.data ?? null` and the error record.  The `Except`
error channel stands for a thrown exception; no branch of this variant uses
it. -/
def HttpClientService.execute {T : Type} (outcome : AxiosOutcome T)
    (duration : Int) : Except String (HttpCallResult T) :=
  match outcome with
  | AxiosOutcome.success r =>
    Except.ok
      { status := r.status, data := some r.data, headers := r.headers
        error := none, duration := duration }
  | AxiosOutcome.failure err =>
    Except.ok
      { status := (err.response.map AxiosResponse.status).getD
          HTTP_STATUS_GATEWAY_TIMEOUT
        data := err.response.map AxiosResponse.data
        headers := (err.response.map AxiosResponse.headers).getD ""
        error := some { code := err.code, message := err.message }
        duration := duration }

/-- Response body shape the ROBI service inspects. -/
structure RobiChargeResponse where
  transactionOperationStatus : Option String
deriving Repr, DecidableEq

/-- Return value of `RobiPaymentService.renewSubscription`. -/
structure RobiRenewResult where
  success : Bool
  data : Option RobiChargeResponse
  error : Option HttpCallError
  httpStatus : Int
  responsePayload : Option RobiChargeResponse
  requestPayload : String
  responseDuration : Int
deriving Repr, DecidableEq

/-- `RobiPaymentService.renewSubscription` after the awaited post returned
`response`, with `payload` the serialized request: the charge succeeded iff
the body's `transactionOperationStatus` equals `charged` case-insensitively. -/
def RobiPaymentService.renewSubscription
    (response : HttpCallResult RobiChargeResponse) (payload : String) :
    RobiRenewResult :=
  let isPaymentSuccessful :=
    match response.data with
    | some responseData =>
      match responseData.transactionOperationStatus with
      | some s => s.toLower == "charged"
      | none => false
    | none => false
  { success := isPaymentSuccessful
    data := response.data
    error := response.error
    httpStatus := response.status
    responsePayload := response.data
    requestPayload := payload
    responseDuration := response.duration }

/-- Return value of `GpPaymentService.charge`. -/
structure GpChargeResult (T : Type) where
  success : Bool
  data : Option T
  error : Option HttpCallError
deriving Repr, DecidableEq

/-- `GpPaymentService.charge` after the awaited post returned `response`:
the charge succeeded iff `response.status === 200`. -/
def GpPaymentService.charge {T : Type} (response : HttpCallResult T) :
    GpChargeResult T :=
  { success := response.status == 200
    data := response.data
    error := response.error }

/-- C9. The HTTP client never throws: every axios outcome — a non-2xx reply
included — becomes an `Except.ok` result carrying the reply status and an
error record; a transport failure with no response yields status 504 with
the failure code and message; and through the gateway services such a
failure surfaces as `success = false` with the error record (and
`httpStatus = 504` on the ROBI result). -/
theorem http_client_never_throws :
    (∀ (T : Type) (outcome : AxiosOutcome T) (duration : Int),
        ∃ r, HttpClientService.execute outcome duration = Except.ok r)
    ∧ (∀ (T : Type) (resp : AxiosResponse T) (code msg : Option String)
        (duration : Int),
        HttpClientService.execute (AxiosOutcome.failure
            { response := some resp, code := code, message := msg }) duration
          = Except.ok
            { status := resp.status, data := some resp.data
              headers := resp.headers
              error := some { code := code, message := msg }
              duration := duration })
    ∧ (∀ (T : Type) (code msg : Option String) (duration : Int),
        HttpClientService.execute (AxiosOutcome.failure
            ({ response := none, code := code, message := msg } : AxiosError T))
          duration
          = Except.ok
            { status := HTTP_STATUS_GATEWAY_TIMEOUT, data := none, headers := ""
              error := some { code := code, message := msg }
              duration := duration })
    ∧ (∀ (code msg : Option String) (duration : Int) (payload : String)
        (r : HttpCallResult RobiChargeResponse),
        HttpClientService.execute (AxiosOutcome.failure
            ({ response := none, code := code, message := msg } :
              AxiosError RobiChargeResponse)) duration = Except.ok r →
        (RobiPaymentService.renewSubscription r payload).success = false
        ∧ (RobiPaymentService.renewSubscription r payload).httpStatus
            = HTTP_STATUS_GATEWAY_TIMEOUT
        ∧ (RobiPaymentService.renewSubscription r payload).error
            = some { code := code, message := msg })
    ∧ (∀ (T : Type) (code msg : Option String) (duration : Int)
        (r : HttpCallResult T),
        HttpClientService.execute (AxiosOutcome.failure
            ({ response := none, code := code, message := msg } : AxiosError T))
          duration = Except.ok r →
        (GpPaymentService.charge r).success = false
        ∧ (GpPaymentService.charge r).error = some { code := code, message := msg }) := by
  refine ⟨?_, ?_, ?_, ?_, ?_⟩
  · intro T outcome duration
    cases outcome with
    | success r => exact ⟨_, rfl⟩
    | failure e => exact ⟨_, rfl⟩
  · intro T resp code msg duration
    rfl
  · intro T code msg duration
    rfl
  · intro code msg duration payload r h
    have h' := Except.ok.inj h
    subst h'
    exact ⟨rfl, rfl, rfl⟩
  · intro T code msg duration r h
    have h' := Except.ok.inj h
    subst h'
    refine ⟨?_, rfl⟩
    rfl

def timeoutError : HttpCallError :=
  { code := some "ECONNABORTED", message := some "timeout exceeded" }

def timeoutResult : HttpCallResult RobiChargeResponse :=
  { status := HTTP_STATUS_GATEWAY_TIMEOUT, data := none, headers := ""
    error := some timeoutError, duration := 3 }

theorem http_client_never_throws_witness :
    (RobiPaymentService.renewSubscription timeoutResult "req").success = false
    ∧ (RobiPaymentService.renewSubscription timeoutResult "req").httpStatus
        = HTTP_STATUS_GATEWAY_TIMEOUT
    ∧ (RobiPaymentService.renewSubscription timeoutResult "req").error
        = some timeoutError :=
  http_client_never_throws.2.2.2.1 (some "ECONNABORTED")
    (some "timeout exceeded") 3 "req" timeoutResult rfl

end RenewalSpec
